import Mathlib

/-!
Verification of the ingestion, chunking and self-indexing pipeline of the
mcp-knowledge-base repository.  Every definition below is a shallow embedding
of a source function; strings are modelled as lists of characters, JavaScript
numbers as `Int`/`Nat`/`ℚ` (with exact arithmetic; IEEE-754 special values are
modelled explicitly where they matter), asynchronous fallible calls as
`Except`-valued functions supplied through an environment, and the
non-terminating `while` loop of `chunkText` through an explicit fuel
parameter (`none` = the loop has not finished within the given fuel).
-/

/-- JavaScript `String.prototype.slice` on a list of characters: negative
indices count from the end, out-of-range indices are clamped. -/
def jsSlice (l : List Char) (s e : Int) : List Char :=
  let n : Int := l.length
  let s' : Int := if s < 0 then max (n + s) 0 else min s n
  let e' : Int := if e < 0 then max (n + e) 0 else min e n
  (l.take e'.toNat).drop s'.toNat

/-- The `while (start < text.length)` loop of `chunkText` (utils, part_000):
`end = Math.min(start + chunkSize, text.length)`, push `text.slice(start, end)`,
`start = end - overlap`.  A fuel parameter bounds the number of iterations;
`none` means the loop is still running after `fuel` iterations. -/
def chunkLoop (text : List Char) (chunkSize overlap : Int) :
    Int → Nat → Option (List (List Char))
  | _, 0 => none
  | start, fuel + 1 =>
    if start < (text.length : Int) then
      let e := min (start + chunkSize) (text.length : Int)
      match chunkLoop text chunkSize overlap (e - overlap) fuel with
      | none => none
      | some rest => some (jsSlice text start e :: rest)
    else
      some []

/-- `chunkText(text, chunkSize, overlap)` from the source: a single chunk when
`text.length <= chunkSize`, otherwise the sliding-window loop (with fuel). -/
def chunkText (fuel : Nat) (text : List Char) (chunkSize overlap : Int) :
    Option (List (List Char)) :=
  if (text.length : Int) ≤ chunkSize then some [text]
  else chunkLoop text chunkSize overlap 0 fuel

/-- `estimateTokenCount` from the source: `Math.ceil(text.length / 4)`. -/
def estimateTokenCount (text : List Char) : Nat :=
  (text.length + 3) / 4

/-- Position metadata of one chunk as built by
`DocumentService.addDocumentWithChunks` (part_002). -/
structure ChunkMeta where
  chunk_index : Nat
  start_position : Int
  end_position : Int
  overlap_with_previous : Int
  overlap_with_next : Int
  token_count : Nat
deriving DecidableEq

/-- The chunk-metadata map of `addDocumentWithChunks` (part_002, lines
116-133): `start_position = index * (chunkSize - overlap)`,
`end_position = Math.min((index + 1) * chunkSize, content.length)`,
`overlap_with_previous = index > 0 ? overlap : 0`,
`overlap_with_next = index < chunks.length - 1 ? overlap : 0`. -/
def buildChunkMetas (textChunks : List (List Char)) (contentLen : Int)
    (chunkSize overlap : Int) : List ChunkMeta :=
  textChunks.mapIdx fun index content =>
    { chunk_index := index
      start_position := (index : Int) * (chunkSize - overlap)
      end_position := min (((index : Int) + 1) * chunkSize) contentLen
      overlap_with_previous := if 0 < index then overlap else 0
      overlap_with_next := if index < textChunks.length - 1 then overlap else 0
      token_count := estimateTokenCount content }

/-- Sum of pairwise products, the `dotProduct` accumulator of
`calculateCosineSimilarity` (part_000, utils). -/
def dotProduct (a b : List ℚ) : ℚ :=
  (List.zipWith (· * ·) a b).sum

/-- The `normA`/`normB` accumulator of `calculateCosineSimilarity`:
sum of squares of the entries. -/
def normSq (a : List ℚ) : ℚ :=
  dotProduct a a

/-- `calculateCosineSimilarity(vectorA, vectorB)` from the source, over exact
arithmetic.  `Except.error` models the thrown length-mismatch `Error`.  The
source computes `dot / (Math.sqrt(normA) * Math.sqrt(normB))` and then
`Math.max(0, Math.min(1, similarity))` in IEEE-754 doubles; when either norm
is zero the zero-norm vector is all zeros, so the numerator is zero as well
and the division yields `NaN`, which `Math.min`/`Math.max` propagate — this
outcome is modelled as `Option.none`.  Otherwise the clamped quotient is
returned as `some`. -/
noncomputable def calculateCosineSimilarity (vectorA vectorB : List ℚ) :
    Except String (Option ℝ) :=
  if vectorA.length ≠ vectorB.length then
    .error "Vectors must have the same length"
  else if normSq vectorA = 0 ∨ normSq vectorB = 0 then
    .ok none
  else
    .ok (some (max 0 (min 1 ((dotProduct vectorA vectorB : ℚ) /
      (Real.sqrt (normSq vectorA : ℚ) * Real.sqrt (normSq vectorB : ℚ))))))

/-- Trace of one `retryWithBackoff` run: the final outcome, how many times the
wrapped operation was invoked, and the delays slept between attempts. -/
structure RetryTrace (ε α : Type) where
  result : Except ε α
  calls : Nat
  delays : List ℚ

/-- The `for (attempt = 0; attempt <= maxRetries; attempt++)` loop of
`retryWithBackoff` (part_000, lines 1162-1185).  `fn n` is the outcome of the
n-th attempt; `remaining = maxRetries - attempt`, so `remaining = 0` is the
`attempt === maxRetries` re-throw case, and otherwise the loop sleeps
`baseDelay * 2 ^ attempt` and retries. -/
def retryGo (fn : Nat → Except ε α) (baseDelay : ℚ) :
    Nat → Nat → RetryTrace ε α
  | attempt, remaining =>
    match fn attempt with
    | .ok a => ⟨.ok a, 1, []⟩
    | .error e =>
      match remaining with
      | 0 => ⟨.error e, 1, []⟩
      | r + 1 =>
        let t := retryGo fn baseDelay (attempt + 1) r
        ⟨t.result, t.calls + 1, baseDelay * 2 ^ attempt :: t.delays⟩

/-- `retryWithBackoff(fn, maxRetries, baseDelay)` from the source, starting at
attempt 0 with `maxRetries` further attempts allowed. -/
def retryWithBackoff (fn : Nat → Except ε α) (maxRetries : Nat)
    (baseDelay : ℚ) : RetryTrace ε α :=
  retryGo fn baseDelay 0 maxRetries

/-- The whitespace class of the JavaScript regexes `\s` and `String.trim`
(restricted to the ASCII whitespace characters that can occur in the inputs
modelled here). -/
def jsIsSpace (c : Char) : Bool :=
  c = ' ' || c = '\t' || c = '\n' || c = '\r' ||
    c = Char.ofNat 11 || c = Char.ofNat 12

/-- `text.replace(/\s+/g, " ")` of `sanitizeText`: every maximal run of
whitespace collapses to a single space. -/
def collapseWS : List Char → List Char
  | [] => []
  | [c] => if jsIsSpace c then [' '] else [c]
  | c₁ :: c₂ :: rest =>
    if jsIsSpace c₁ && jsIsSpace c₂ then collapseWS (c₂ :: rest)
    else (if jsIsSpace c₁ then ' ' else c₁) :: collapseWS (c₂ :: rest)

/-- The `\w` class of the second regex of `sanitizeText` (ASCII letters,
digits and underscore). -/
def isWordChar (c : Char) : Bool :=
  c.isAlpha || c.isDigit || c = '_'

/-- The characters kept by `text.replace(/[^\w\s.,!?-]/g, "")`. -/
def isAllowedChar (c : Char) : Bool :=
  isWordChar c || jsIsSpace c || c = '.' || c = ',' || c = '!' ||
    c = '?' || c = '-'

/-- `String.prototype.trim`: drop leading and trailing whitespace. -/
def trimChars (l : List Char) : List Char :=
  ((l.dropWhile jsIsSpace).reverse.dropWhile jsIsSpace).reverse

/-- `sanitizeText(text)` from the source: collapse whitespace, drop
disallowed characters, trim. -/
def sanitizeText (text : List Char) : List Char :=
  trimChars ((collapseWS text).filter isAllowedChar)

/-- The `AppError(message, statusCode, code)` shape thrown by the services
(`details` omitted: it never influences control flow modelled here). -/
structure AppError where
  message : String
  statusCode : Nat
  code : String
deriving DecidableEq

/-- `EmbeddingService.generateEmbedding(text)` (part_004): sanitize, reject
when the trimmed result is empty, otherwise return the freshly generated
normalized mock vector.  The `Math.random()`-based vector construction and
its normalisation are I/O and are modelled by the `mock` argument. -/
def generateEmbedding (mock : List ℚ) (text : List Char) :
    Except AppError (List ℚ) :=
  let sanitized := sanitizeText text
  if (trimChars sanitized).isEmpty then
    .error ⟨"Text cannot be empty", 400, "EMPTY_TEXT"⟩
  else
    .ok mock

/-- `EmbeddingService.generateEmbeddings(texts)` (part_004, lines 59-104):
empty array passes through, a single-element array degrades to the
single-text path, otherwise sanitize all texts, drop the ones whose trimmed
form is empty, reject when none survive, and emit one fresh mock vector per
surviving text (`gen i` is the i-th vector drawn). -/
def generateEmbeddings (gen : Nat → List ℚ) (texts : List (List Char)) :
    Except AppError (List (List ℚ)) :=
  match texts with
  | [] => .ok []
  | [t] =>
    match generateEmbedding (gen 0) t with
    | .error e => .error e
    | .ok v => .ok [v]
  | _ :: _ :: _ =>
    let sanitized := (texts.map sanitizeText).filter
      fun t => !(trimChars t).isEmpty
    if sanitized.length = 0 then
      .error ⟨"No valid texts provided", 400, "NO_VALID_TEXTS"⟩
    else
      .ok (sanitized.mapIdx fun i _ => gen i)

/-- The inputs of `generateEmbeddings` that survive normalization (the
`sanitizedTexts` array of the source). -/
def survivingTexts (texts : List (List Char)) : List (List Char) :=
  (texts.map sanitizeText).filter fun t => !(trimChars t).isEmpty

/-- The scheduler's only shared mutable state: the `isIndexing` flag of
`SelfIndexingService` (part_001). -/
structure SchedulerState where
  isIndexing : Bool
deriving DecidableEq

/-- Outcome of one `performIndexing` call: skipped by the single-flight
guard, or a completed pass together with the exception caught by the
`try`/`catch` around the sweeps (if any). -/
inductive PassOutcome (ε : Type) where
  | skipped
  | completed (caught : Option ε)
deriving DecidableEq

/-- The `catch` of `performIndexing`: a rejected sweep sequence is logged,
never re-thrown. -/
def caughtOf (r : Except ε Unit) : Option ε :=
  match r with
  | .ok _ => none
  | .error e => some e

/-- `SelfIndexingService.performIndexing` (part_001, lines 62-90): return
immediately when `isIndexing` is set; otherwise set the flag, run the sweep
sequence (`body`, which observes the state it runs under), catch any
exception, and clear the flag in `finally`. -/
def performIndexing (s : SchedulerState)
    (body : SchedulerState → Except ε Unit) :
    SchedulerState × PassOutcome ε :=
  if s.isIndexing then (s, .skipped)
  else
    let running : SchedulerState := { isIndexing := true }
    let caught := caughtOf (body running)
    ({ isIndexing := false }, .completed caught)

/-- `SelfIndexingService.triggerIndexing` (part_001, lines 414-427): logs and
delegates to `performIndexing`. -/
def triggerIndexing (s : SchedulerState)
    (body : SchedulerState → Except ε Unit) :
    SchedulerState × PassOutcome ε :=
  performIndexing s body

/-- `SelfIndexingService.getStatus` (part_001): exposes the `isIndexing`
flag. -/
def getStatus (s : SchedulerState) : Bool :=
  s.isIndexing

/-- Environment of one indexing pass: outcomes of the filesystem, store and
git calls a pass performs (each may fail arbitrarily). -/
structure IndexEnv where
  readFileRes : String → Except String String
  addDocumentRes : String → Except String Unit
  listFilesRes : String → Except String (List String)
  gitLogRes : Except String String
  gitBranchRes : Except String String
  gitStatusRes : Except String String

/-- Observable events of one indexing pass: a document submitted for a file
or a generated document, or one of the `console.warn` sites firing. -/
inductive IndexEvent where
  | indexedFile (path : String)
  | addedDoc (id : String)
  | warnedFile (path : String)
  | warnedDocFile (path : String)
  | warnedConfigFile (path : String)
  | warnedDir (dir : String)
  | warnedDocsDir
  | warnedSrcDir
  | warnedHistory
  | warnedStructure
deriving DecidableEq

/-- `SelfIndexingService.indexFile` (part_001): read the file and submit a
document; any failure is wrapped and re-thrown
(`throw new Error("Failed to index file ...")`). -/
def indexFile (env : IndexEnv) (path : String) :
    Except String (List IndexEvent) :=
  match env.readFileRes path with
  | .error e => .error ("Failed to index file " ++ path ++ ": " ++ e)
  | .ok _ =>
    match env.addDocumentRes path with
    | .error e => .error ("Failed to index file " ++ path ++ ": " ++ e)
    | .ok _ => .ok [.indexedFile path]

/-- `SelfIndexingService.getFilesRecursively` (part_001): the recursive
listing; a `readdir` failure is warned about and yields the empty list —
it is never re-thrown. -/
def getFilesRecursively (env : IndexEnv) (dir : String) :
    List String × List IndexEvent :=
  match env.listFilesRes dir with
  | .ok files => (files, [])
  | .error _ => ([], [.warnedDir dir])

/-- `SelfIndexingService.indexDirectory` (part_001, lines 316-334): list the
files, then index each one, warning and continuing on a per-file failure.
The source wraps the body in a re-throwing `catch`, but the body itself
catches every fallible step, so the wrapper can never fire. -/
def indexDirectory (env : IndexEnv) (dir : String) :
    Except String (List IndexEvent) :=
  let listing := getFilesRecursively env dir
  .ok (listing.2 ++ listing.1.flatMap fun f =>
    match indexFile env f with
    | .ok evs => evs
    | .error _ => [.warnedFile f])

/-- The `docPaths` array of `indexDocumentation`. -/
def docPaths : List String :=
  ["docs/", "README.md", "CHANGELOG.md", "CONTRIBUTING.md"]

/-- The `configFiles` array of `indexCodeFiles`. -/
def configFiles : List String :=
  ["package.json", "tsconfig.json", "docker-compose.yml", "Dockerfile"]

/-- `SelfIndexingService.indexDocumentation` (part_001): each known path and
the docs-directory scan run under their own `catch`; the sweep itself never
rejects. -/
def indexDocumentation (env : IndexEnv) : Except String (List IndexEvent) :=
  .ok ((docPaths.flatMap fun p =>
        match indexFile env p with
        | .ok evs => evs
        | .error _ => [.warnedDocFile p]) ++
      (match indexDirectory env "docs/" with
       | .ok evs => evs
       | .error _ => [.warnedDocsDir]))

/-- `SelfIndexingService.indexCodeFiles` (part_001): the src-directory scan
and each configuration file run under their own `catch`. -/
def indexCodeFiles (env : IndexEnv) : Except String (List IndexEvent) :=
  .ok ((match indexDirectory env "src/" with
        | .ok evs => evs
        | .error _ => [.warnedSrcDir]) ++
      configFiles.flatMap fun f =>
        match indexFile env f with
        | .ok evs => evs
        | .error _ => [.warnedConfigFile f])

/-- The `try` body of `indexDevelopmentHistory` (part_001): git log, submit a
history document when non-empty, git branch and status, submit a status
document when non-empty; every step may reject. -/
def historyBody (env : IndexEnv) : Except String (List IndexEvent) := do
  let commits ← env.gitLogRes
  let evs₁ ← if commits ≠ "" then
      match env.addDocumentRes "git-history" with
      | .ok _ => pure [IndexEvent.addedDoc "git-history"]
      | .error e => throw e
    else pure []
  let _branch ← env.gitBranchRes
  let status ← env.gitStatusRes
  let evs₂ ← if status ≠ "" then
      match env.addDocumentRes "git-status" with
      | .ok _ => pure [IndexEvent.addedDoc "git-status"]
      | .error e => throw e
    else pure []
  pure (evs₁ ++ evs₂)

/-- `SelfIndexingService.indexDevelopmentHistory` (part_001): the whole body
runs under one `catch` that warns and returns. -/
def indexDevelopmentHistory (env : IndexEnv) :
    Except String (List IndexEvent) :=
  .ok (match historyBody env with
    | .ok evs => evs
    | .error _ => [.warnedHistory])

/-- The `try` body of `indexProjectStructure` (part_001): render the tree
(total — `generateProjectStructure` catches internally) and submit it as one
document. -/
def structureBody (env : IndexEnv) : Except String (List IndexEvent) :=
  match env.addDocumentRes "project-structure" with
  | .ok _ => .ok [.addedDoc "project-structure"]
  | .error e => .error e

/-- `SelfIndexingService.indexProjectStructure` (part_001): body under one
`catch` that warns and returns. -/
def indexProjectStructure (env : IndexEnv) :
    Except String (List IndexEvent) :=
  .ok (match structureBody env with
    | .ok evs => evs
    | .error _ => [.warnedStructure])

/-- The sweep sequence of `performIndexing`'s `try` block: documentation,
code, history, structure, in order; a rejection here would skip the
remaining sweeps. -/
def performPass (env : IndexEnv) : Except String (List IndexEvent) := do
  let e₁ ← indexDocumentation env
  let e₂ ← indexCodeFiles env
  let e₃ ← indexDevelopmentHistory env
  let e₄ ← indexProjectStructure env
  pure (e₁ ++ e₂ ++ e₃ ++ e₄)

/-- A stored document as seen by `WeaviateService.searchDocuments`
(models/index.ts): only title and content participate in scoring. -/
structure RawDoc where
  title : List Char
  content : List Char
deriving DecidableEq

/-- The fields of `SearchQuery` that `searchDocuments`' scoring loop reads. -/
structure SearchQueryM where
  query : List Char
  similarity_threshold : ℚ
deriving DecidableEq

/-- `String.prototype.toLowerCase`, characterwise. -/
def toLowerL (l : List Char) : List Char :=
  l.map Char.toLower

/-- The lexical relevance score of `searchDocuments` (models/index.ts, lines
550-567): `titleMatch ? 0.9 : contentMatch ? 0.7 : 0.3`, where a match is
`includes` on the lowercased strings. -/
def searchScore (queryL titleL contentL : List Char) : ℚ :=
  if queryL <:+: titleL then 9 / 10
  else if queryL <:+: contentL then 7 / 10
  else 3 / 10

/-- The result-building loop of `WeaviateService.searchDocuments`: score each
stored item and keep it only when `score >= query.similarity_threshold`. -/
def searchDocuments (q : SearchQueryM) (items : List RawDoc) :
    List (RawDoc × ℚ) :=
  items.filterMap fun item =>
    let score := searchScore (toLowerL q.query) (toLowerL item.title)
      (toLowerL item.content)
    if q.similarity_threshold ≤ score then some (item, score) else none

theorem chunkLoop_stuck (text : List Char) (chunkSize overlap : Int)
    (hov : 0 < overlap ∨ chunkSize ≤ overlap) :
    ∀ (fuel : Nat) (start : Int), start < (text.length : Int) →
      chunkLoop text chunkSize overlap start fuel = none := by
  intro fuel
  induction fuel with
  | zero => intro start _; rfl
  | succ n ih =>
    intro start hstart
    have hnext : min (start + chunkSize) (text.length : Int) - overlap <
        (text.length : Int) := by
      rcases hov with h | h
      · have : min (start + chunkSize) (text.length : Int) ≤
            (text.length : Int) := min_le_right _ _
        omega
      · have : min (start + chunkSize) (text.length : Int) ≤
            start + chunkSize := min_le_left _ _
        omega
    simp only [chunkLoop, if_pos hstart]
    rw [ih _ hnext]

/-- C1: the claim states that for content longer than `chunkSize` and
`0 < overlap < chunkSize`, `chunkText` terminates with a finite, ordered,
non-empty chunk sequence.  The code refutes it: once the window end reaches
`len(content)`, the next start `len - overlap` is strictly below
`len(content)` again, so the `while` loop never exits — for every fuel bound
the loop is still running. -/
theorem chunkText_never_terminates (text : List Char) (chunkSize overlap : Int)
    (hlen : chunkSize < (text.length : Int)) (h₁ : 0 < overlap)
    (h₂ : overlap < chunkSize) :
    ∀ fuel, chunkText fuel text chunkSize overlap = none := by
  intro fuel
  unfold chunkText
  rw [if_neg (by omega)]
  exact chunkLoop_stuck text chunkSize overlap (Or.inl h₁) fuel 0 (by omega)

/-- C1 witness: a 3-character content with `chunkSize = 2`, `overlap = 1`
(satisfying every hypothesis of the claim) never finishes, here within a
fuel bound of 1000 iterations. -/
theorem chunkText_never_terminates_witness :
    chunkText 1000 ['a', 'b', 'c'] 2 1 = none :=
  chunkText_never_terminates ['a', 'b', 'c'] 2 1 (by decide) (by decide)
    (by decide) 1000

/-- C2: the claim states that chunking a 2,500-character document with
`chunkSize = 1000`, `overlap = 200` yields exactly 3 chunks.  The code
refutes it: `chunkText` never returns on this input (after the starts 0,
800, 1600, 2300 the start stays at 2300 forever), so
`addDocumentWithChunks` can never build any chunk objects for it. -/
theorem chunkText_spec_scenario_diverges :
    ∀ fuel, chunkText fuel (List.replicate 2500 'a') 1000 200 = none := by
  intro fuel
  unfold chunkText
  rw [if_neg (by simp only [List.length_replicate]; norm_num)]
  exact chunkLoop_stuck _ 1000 200 (Or.inl (by norm_num)) fuel 0
    (by simp only [List.length_replicate]; norm_num)

/-- C3: the claim states
`end_position(i) - overlap_with_next(i) = start_position(i+1)` for
consecutive chunks.  The metadata formula of `addDocumentWithChunks` refutes
it: for the 2,500-character / 1000 / 200 scenario the recorded positions of
chunks 1 and 2 give `2000 - 200 = 1800 ≠ 1600` (the recorded
`end_position` tracks `(i+1)*chunkSize`, not the actual window end). -/
theorem chunk_position_invariant_fails :
    ((buildChunkMetas [List.replicate 1000 'a', List.replicate 1000 'a',
        List.replicate 900 'a'] 2500 1000 200).map fun m =>
      (m.chunk_index, m.start_position, m.end_position, m.overlap_with_next)) =
      [(0, 0, 1000, 200), (1, 800, 2000, 200), (2, 1600, 2500, 0)] ∧
    (2000 : Int) - 200 ≠ 1600 := by
  refine ⟨?_, by decide⟩
  rfl

/-- C4: the claim states that `overlap ≥ chunkSize` (with content longer
than `chunkSize`) is rejected with a configuration error.  The code refutes
it: `chunkText` performs no configuration validation at all (no
`InvalidConfiguration` error exists in the repository) and instead loops
forever, since the start never advances past `len(content)`. -/
theorem chunkText_no_config_rejection (text : List Char)
    (chunkSize overlap : Int) (hcs : 0 < chunkSize)
    (hlen : chunkSize < (text.length : Int)) (hov : chunkSize ≤ overlap) :
    ∀ fuel, chunkText fuel text chunkSize overlap = none := by
  intro fuel
  unfold chunkText
  rw [if_neg (by omega)]
  exact chunkLoop_stuck text chunkSize overlap (Or.inr hov) fuel 0 (by omega)

/-- C4 witness: `chunkText` on a 3-character content with `chunkSize = 2`,
`overlap = 2` signals nothing and is still looping after 500 iterations. -/
theorem chunkText_no_config_rejection_witness :
    chunkText 500 ['a', 'b', 'c'] 2 2 = none :=
  chunkText_no_config_rejection ['a', 'b', 'c'] 2 2 (by decide) (by decide)
    (by decide) 500

/-- C5 counterexample: the claim states that a zero-magnitude vector yields
the score 0.  The code refutes it: for `[0]` against `[0]` the source
computes `0 / (0 * 0) = NaN`, and `Math.max(0, Math.min(1, NaN))` is `NaN`
(modelled as `none`), not the score 0. -/
theorem cosine_zero_vector_nan :
    calculateCosineSimilarity [0] [0] = .ok none ∧
    calculateCosineSimilarity [0] [0] ≠ .ok (some (0 : ℝ)) := by
  have h : calculateCosineSimilarity [0] [0] = .ok none := by
    unfold calculateCosineSimilarity
    rw [if_neg (by decide), if_pos (Or.inl (by norm_num [normSq, dotProduct]))]
  exact ⟨h, by rw [h]; simp⟩

/-- C5 amended: whenever `calculateCosineSimilarity` returns a numeric
score it lies in [0,1] (the clamp guarantees it), but a zero-magnitude
vector (of matching length) yields `NaN`, not the score 0. -/
theorem cosine_clamped_in_unit (a b : List ℚ) :
    (∀ s : ℝ, calculateCosineSimilarity a b = .ok (some s) →
       0 ≤ s ∧ s ≤ 1) ∧
    (a.length = b.length → normSq a = 0 ∨ normSq b = 0 →
       calculateCosineSimilarity a b = .ok none) := by
  constructor
  · intro s hs
    unfold calculateCosineSimilarity at hs
    by_cases h₁ : a.length ≠ b.length
    · rw [if_pos h₁] at hs
      exact absurd hs (by simp)
    · rw [if_neg h₁] at hs
      by_cases h₂ : normSq a = 0 ∨ normSq b = 0
      · rw [if_pos h₂] at hs
        simp at hs
      · rw [if_neg h₂] at hs
        have hv := Except.ok.inj hs
        have hv' := Option.some.inj hv
        rw [← hv']
        refine ⟨le_max_left _ _, max_le ?_ (min_le_left _ _)⟩
        exact zero_le_one
  · intro h₁ h₂
    unfold calculateCosineSimilarity
    rw [if_neg (by simp [h₁]), if_pos h₂]

/-- C5 witness: `[1]` against `[1]` returns the numeric score 1, which the
amended theorem places in [0,1]. -/
theorem cosine_clamped_in_unit_witness :
    calculateCosineSimilarity [1] [1] = .ok (some (1 : ℝ)) ∧
    0 ≤ (1 : ℝ) ∧ (1 : ℝ) ≤ 1 := by
  have h : calculateCosineSimilarity [1] [1] = .ok (some (1 : ℝ)) := by
    unfold calculateCosineSimilarity
    rw [if_neg (by decide), if_neg (by norm_num [normSq, dotProduct])]
    have hd : ((dotProduct [1] [1] : ℚ) : ℝ) = 1 := by
      norm_num [dotProduct]
    have hn : ((normSq [1] : ℚ) : ℝ) = 1 := by
      norm_num [normSq, dotProduct]
    rw [hd, hn, Real.sqrt_one]
    norm_num
  exact ⟨h, (cosine_clamped_in_unit [1] [1]).1 1 h⟩

theorem retryGo_allFail (fn : Nat → Except ε α) (err : Nat → ε)
    (h : ∀ n, fn n = .error (err n)) (baseDelay : ℚ) :
    ∀ (remaining attempt : Nat),
      retryGo fn baseDelay attempt remaining =
        ⟨.error (err (attempt + remaining)), remaining + 1,
         (List.range remaining).map fun k => baseDelay * 2 ^ (attempt + k)⟩ := by
  intro remaining
  induction remaining with
  | zero =>
    intro attempt
    unfold retryGo
    rw [h attempt]
    simp
  | succ r ih =>
    intro attempt
    unfold retryGo
    rw [h attempt]
    simp only []
    rw [ih (attempt + 1)]
    refine congrArg₂ (fun x y => RetryTrace.mk x (r + 1 + 1) y) ?_ ?_
    · have : attempt + 1 + r = attempt + (r + 1) := by omega
      rw [this]
    · rw [List.range_succ_eq_map, List.map_cons, List.map_map]
      refine congrArg₂ List.cons (by rw [Nat.add_zero]) ?_
      refine List.map_congr_left ?_
      intro k _
      simp only [Function.comp]
      have : attempt + 1 + k = attempt + Nat.succ k := by omega
      rw [this]

/-- C6 counterexample: the claim states that `retryWithBackoff` invokes the
operation up to `maxRetries` attempts.  The code refutes it: the loop runs
`attempt = 0 .. maxRetries` inclusive, so with `maxRetries = 3` an
always-failing operation is invoked 4 times, not at most 3. -/
theorem retry_calls_exceed_maxRetries :
    (retryWithBackoff (fun _ => (Except.error "fail" : Except String Unit)) 3
      1).calls = 4 ∧ ¬ (4 : Nat) ≤ 3 :=
  ⟨rfl, by decide⟩

/-- C6 amended: for an operation failing on every invocation,
`retryWithBackoff(fn, maxRetries, baseDelay)` invokes it `maxRetries + 1`
times (one initial attempt plus `maxRetries` retries), sleeps
`baseDelay * 2 ^ attempt` after every failed attempt except the final one,
and raises the error of the final attempt. -/
theorem retryWithBackoff_exhausts (fn : Nat → Except ε α) (err : Nat → ε)
    (h : ∀ n, fn n = .error (err n)) (maxRetries : Nat) (baseDelay : ℚ) :
    retryWithBackoff fn maxRetries baseDelay =
      ⟨.error (err maxRetries), maxRetries + 1,
       (List.range maxRetries).map fun k => baseDelay * 2 ^ k⟩ := by
  unfold retryWithBackoff
  rw [retryGo_allFail fn err h baseDelay maxRetries 0]
  simp

/-- C6 witness: an operation failing with its attempt number, `maxRetries =
2`, `baseDelay = 1`: three invocations, delays 1 and 2, final error 2. -/
theorem retryWithBackoff_exhausts_witness :
    retryWithBackoff (fun n => (Except.error n : Except Nat Unit)) 2 1 =
      ⟨.error 2, 3, [1, 2]⟩ := by
  have h := retryWithBackoff_exhausts
    (fun n => (Except.error n : Except Nat Unit)) (fun n => n)
    (fun _ => rfl) 2 1
  simpa using h

/-- C7 counterexample: the claim states that when all inputs are dropped
after normalization, batch embedding signals `NoValidInput`.  The code
refutes it on a one-element batch: `[""]` degrades to the single-text path,
which throws the `EMPTY_TEXT` error, not `NO_VALID_TEXTS`. -/
theorem generateEmbeddings_singleton_empty :
    generateEmbeddings (fun _ => []) [[]] =
      .error ⟨"Text cannot be empty", 400, "EMPTY_TEXT"⟩ ∧
    "EMPTY_TEXT" ≠ "NO_VALID_TEXTS" :=
  ⟨rfl, by decide⟩

/-- C7 amended: batch embedding returns one vector per input surviving
normalization (so the order-preserving survivor list determines the output
length), an empty input array yields an empty output without error, and
when every input is dropped the result is `NO_VALID_TEXTS` for arrays of
two or more texts but `EMPTY_TEXT` (the single-text path's error) for a
one-element array. -/
theorem generateEmbeddings_amended (gen : Nat → List ℚ)
    (texts : List (List Char)) :
    (texts = [] → generateEmbeddings gen texts = .ok []) ∧
    (∀ vs, generateEmbeddings gen texts = .ok vs →
       vs.length = (survivingTexts texts).length) ∧
    (2 ≤ texts.length → survivingTexts texts = [] →
       generateEmbeddings gen texts =
         .error ⟨"No valid texts provided", 400, "NO_VALID_TEXTS"⟩) ∧
    (∀ t, texts = [t] → survivingTexts texts = [] →
       generateEmbeddings gen texts =
         .error ⟨"Text cannot be empty", 400, "EMPTY_TEXT"⟩) := by
  match texts with
  | [] =>
    refine ⟨fun _ => rfl, ?_, ?_, ?_⟩
    · intro vs hvs
      have : vs = [] := by simpa [generateEmbeddings] using hvs
      simp [this, survivingTexts]
    · intro h
      exact absurd h (by decide)
    · intro t ht
      simp at ht
  | [t] =>
    refine ⟨by simp, ?_, ?_, ?_⟩
    · intro vs hvs
      by_cases h : (trimChars (sanitizeText t)).isEmpty
      · simp [generateEmbeddings, generateEmbedding, h] at hvs
      · have hv : [gen 0] = vs := by
          simpa [generateEmbeddings, generateEmbedding, h] using hvs
        simp [← hv, survivingTexts, h]
    · intro h; simp at h
    · intro t' ht hsv
      have ht' : t' = t := by simpa using ht.symm
      subst ht'
      have h : (trimChars (sanitizeText t')).isEmpty = true := by
        by_contra hne
        simp [survivingTexts, hne] at hsv
      simp [generateEmbeddings, generateEmbedding, h]
  | a :: b :: rest =>
    refine ⟨by simp, ?_, ?_, ?_⟩
    · intro vs hvs
      by_cases h : (survivingTexts (a :: b :: rest)).length = 0
      · rw [generateEmbeddings] at hvs
        rw [if_pos (by simpa [survivingTexts] using h)] at hvs
        exact absurd hvs (by simp)
      · rw [generateEmbeddings] at hvs
        rw [if_neg (by simpa [survivingTexts] using h)] at hvs
        have := Except.ok.inj hvs
        rw [← this]
        simp [survivingTexts]
    · intro _ hsv
      rw [generateEmbeddings]
      rw [if_pos (by have := congrArg List.length hsv
                     simpa [survivingTexts] using this)]
    · intro t ht; simp at ht

/-- C7 witness: a two-element batch of texts that all normalize to empty is
rejected with `NO_VALID_TEXTS`, and the spec's three-element example keeps
exactly its 2 surviving inputs. -/
theorem generateEmbeddings_amended_witness :
    generateEmbeddings (fun _ => ([] : List ℚ)) [[], []] =
      .error ⟨"No valid texts provided", 400, "NO_VALID_TEXTS"⟩ ∧
    (2 : Nat) = (survivingTexts [['v'], [], ['w']]).length := by
  refine ⟨(generateEmbeddings_amended (fun _ => ([] : List ℚ))
    [[], []]).2.2.1 (by decide) (by decide), ?_⟩
  have h : generateEmbeddings (fun _ => ([] : List ℚ)) [['v'], [], ['w']] =
      .ok [[], []] := rfl
  have hlen := (generateEmbeddings_amended (fun _ => ([] : List ℚ))
    [['v'], [], ['w']]).2.1 [[], []] h
  simpa using hlen

/-- C8: the Scheduler never runs two passes concurrently — invoking a pass
(by timer or `triggerIndexing`) while `isIndexing` is set returns without
modifying state; otherwise the sweep body runs under the raised flag and the
flag is cleared on every exit path, whether or not the body throws. -/
theorem scheduler_single_flight {ε : Type} (s : SchedulerState)
    (body : SchedulerState → Except ε Unit) :
    (getStatus s = true → performIndexing s body = (s, .skipped)) ∧
    (getStatus s = false →
       (performIndexing s body).1 = ⟨false⟩ ∧
       (performIndexing s body).2 = .completed (caughtOf (body ⟨true⟩))) ∧
    triggerIndexing s body = performIndexing s body := by
  refine ⟨?_, ?_, rfl⟩
  · intro h
    unfold performIndexing
    rw [if_pos (by simpa [getStatus] using h)]
  · intro h
    unfold performIndexing
    rw [if_neg (by simp [getStatus] at h; simp [h])]
    exact ⟨rfl, rfl⟩

/-- C8 witness: with the flag set, a triggered pass is a no-op even when the
body would fail; with the flag clear, a failing body still leaves the
Scheduler not indexing. -/
theorem scheduler_single_flight_witness :
    performIndexing ⟨true⟩
      (fun _ => (Except.error "boom" : Except String Unit)) =
      (⟨true⟩, .skipped) ∧
    (performIndexing ⟨false⟩
      (fun _ => (Except.error "boom" : Except String Unit))).1 = ⟨false⟩ :=
  ⟨(scheduler_single_flight ⟨true⟩ _).1 rfl,
   ((scheduler_single_flight ⟨false⟩ _).2.1 rfl).1⟩

theorem indexFile_ok_events (env : IndexEnv) (f : String)
    (evs : List IndexEvent) (h : indexFile env f = .ok evs) :
    evs = [.indexedFile f] := by
  unfold indexFile at h
  cases hr : env.readFileRes f with
  | error e => rw [hr] at h; exact absurd h (by simp)
  | ok c =>
    rw [hr] at h
    cases ha : env.addDocumentRes f with
    | error e => rw [ha] at h; exact absurd h (by simp)
    | ok u => rw [ha] at h; simpa using h.symm

/-- C9: within one pass, every sweep and every per-file failure is caught
where the source catches it: whatever the filesystem, store and git calls
return, all four sweeps complete without rejecting, the pass runs them all in
sequence, and inside the code sweep every listed file is either indexed or
individually warned about — no failure aborts the pass. -/
theorem indexing_pass_isolated_failures (env : IndexEnv) :
    ∃ e₁ e₂ e₃ e₄,
      indexDocumentation env = .ok e₁ ∧
      indexCodeFiles env = .ok e₂ ∧
      indexDevelopmentHistory env = .ok e₃ ∧
      indexProjectStructure env = .ok e₄ ∧
      performPass env = .ok (e₁ ++ e₂ ++ e₃ ++ e₄) ∧
      ∀ f ∈ (getFilesRecursively env "src/").1,
        IndexEvent.indexedFile f ∈ e₂ ∨ IndexEvent.warnedFile f ∈ e₂ := by
  refine ⟨_, _, _, _, rfl, rfl, rfl, rfl, rfl, ?_⟩
  intro f hf
  have hmem :
      (IndexEvent.indexedFile f ∈
        (getFilesRecursively env "src/").1.flatMap fun g =>
          match indexFile env g with
          | .ok evs => evs
          | .error _ => [IndexEvent.warnedFile g]) ∨
      (IndexEvent.warnedFile f ∈
        (getFilesRecursively env "src/").1.flatMap fun g =>
          match indexFile env g with
          | .ok evs => evs
          | .error _ => [IndexEvent.warnedFile g]) := by
    cases hi : indexFile env f with
    | ok evs =>
      left
      refine List.mem_flatMap.mpr ⟨f, hf, ?_⟩
      rw [hi, indexFile_ok_events env f evs hi]
      simp
    | error e =>
      right
      refine List.mem_flatMap.mpr ⟨f, hf, ?_⟩
      rw [hi]
      simp
  rcases hmem with h | h
  · exact Or.inl (List.mem_append_left _ (List.mem_append_right _ h))
  · exact Or.inr (List.mem_append_left _ (List.mem_append_right _ h))

/-- C9 witness: in an environment where every file read and every git call
fails, the code sweep still visits its one listed source file and warns
about it instead of aborting. -/
theorem indexing_pass_isolated_failures_witness :
    IndexEvent.indexedFile "a.ts" ∈
      ([IndexEvent.warnedFile "a.ts",
        IndexEvent.warnedConfigFile "package.json",
        IndexEvent.warnedConfigFile "tsconfig.json",
        IndexEvent.warnedConfigFile "docker-compose.yml",
        IndexEvent.warnedConfigFile "Dockerfile"] : List IndexEvent) ∨
    IndexEvent.warnedFile "a.ts" ∈
      ([IndexEvent.warnedFile "a.ts",
        IndexEvent.warnedConfigFile "package.json",
        IndexEvent.warnedConfigFile "tsconfig.json",
        IndexEvent.warnedConfigFile "docker-compose.yml",
        IndexEvent.warnedConfigFile "Dockerfile"] : List IndexEvent) := by
  obtain ⟨e₁, e₂, e₃, e₄, h₁, h₂, h₃, h₄, h₅, h₆⟩ :=
    indexing_pass_isolated_failures
      ⟨fun _ => .error "io", fun _ => .ok (),
       fun d => if d = "src/" then .ok ["a.ts"] else .error "io",
       .error "io", .ok "main", .ok ""⟩
  have hc : indexCodeFiles
      ⟨fun _ => .error "io", fun _ => .ok (),
       fun d => if d = "src/" then .ok ["a.ts"] else .error "io",
       .error "io", .ok "main", .ok ""⟩ =
      .ok [IndexEvent.warnedFile "a.ts",
        IndexEvent.warnedConfigFile "package.json",
        IndexEvent.warnedConfigFile "tsconfig.json",
        IndexEvent.warnedConfigFile "docker-compose.yml",
        IndexEvent.warnedConfigFile "Dockerfile"] := rfl
  have he₂ := Except.ok.inj (h₂.symm.trans hc)
  have h₆' := h₆ "a.ts" (by decide)
  rw [he₂] at h₆'
  exact h₆'

/-- C10: every result of `searchDocuments` scores at least the query's
`similarity_threshold`; the fallback lexical score is 0.9 on a title
substring match, 0.7 on a content substring match and 0.3 otherwise; and a
threshold of 0.95 against candidates all scoring 0.7 yields the empty result
list, not an error. -/
theorem searchDocuments_threshold :
    (∀ (q : SearchQueryM) (items : List RawDoc) r,
       r ∈ searchDocuments q items → q.similarity_threshold ≤ r.2) ∧
    (∀ queryL titleL contentL : List Char,
       (queryL <:+: titleL → searchScore queryL titleL contentL = 9 / 10) ∧
       (¬ queryL <:+: titleL → queryL <:+: contentL →
          searchScore queryL titleL contentL = 7 / 10) ∧
       (¬ queryL <:+: titleL → ¬ queryL <:+: contentL →
          searchScore queryL titleL contentL = 3 / 10)) ∧
    (∀ (q : SearchQueryM) (items : List RawDoc),
       q.similarity_threshold = 95 / 100 →
       (∀ i ∈ items, searchScore (toLowerL q.query) (toLowerL i.title)
          (toLowerL i.content) = 7 / 10) →
       searchDocuments q items = []) := by
  refine ⟨?_, ?_, ?_⟩
  · intro q items r hr
    unfold searchDocuments at hr
    rw [List.mem_filterMap] at hr
    obtain ⟨i, _, hf⟩ := hr
    by_cases h : q.similarity_threshold ≤
        searchScore (toLowerL q.query) (toLowerL i.title) (toLowerL i.content)
    · rw [if_pos h] at hf
      have := Option.some.inj hf
      rw [← this]
      exact h
    · rw [if_neg h] at hf
      exact absurd hf (by simp)
  · intro queryL titleL contentL
    refine ⟨?_, ?_, ?_⟩
    · intro h
      unfold searchScore
      rw [if_pos h]
    · intro h₁ h₂
      unfold searchScore
      rw [if_neg h₁, if_pos h₂]
    · intro h₁ h₂
      unfold searchScore
      rw [if_neg h₁, if_neg h₂]
  · intro q items hq hscore
    unfold searchDocuments
    rw [List.filterMap_eq_nil_iff]
    intro i hi
    rw [hscore i hi, hq]
    rw [if_neg (by norm_num)]

/-- C10 witness: the query `"x"` with threshold 0.95 against one document
whose content (but not title) contains it — scored 0.7 — returns the empty
result list. -/
theorem searchDocuments_threshold_witness :
    searchDocuments ⟨['x'], 95 / 100⟩ [⟨['t'], ['x']⟩] = [] := by
  apply (searchDocuments_threshold).2.2 ⟨['x'], 95 / 100⟩ [⟨['t'], ['x']⟩] rfl
  intro i hi
  have : i = (⟨['t'], ['x']⟩ : RawDoc) := by
    simpa using hi
  rw [this]
  have h₁ : ¬ toLowerL ['x'] <:+: toLowerL ['t'] := by decide
  have h₂ : toLowerL ['x'] <:+: toLowerL ['x'] := by decide
  unfold searchScore
  rw [if_neg h₁, if_pos h₂]
